import Mathlib

/-!
Verification development for the art-retrieval repository.

This file gives a shallow embedding of the ingestion pipeline
(`backend/src/embeddings/pipeline.py`, `backend/scripts/build_embeddings.py`),
the record normalizer (`backend/src/embeddings/text_embedder.py`), the image
eligibility logic (`src/backend/embeddings/image_embedder.py`,
`src/backend/artic.py`), the query dispatch
(`backend/scripts/get_results.py`, `src/backend/query.py`) and the evaluation
harness (`scripts/evaluate.py`), together with theorems settling the claims
about those components.

Modelling conventions:
- Embedding-model inference and network fetches are opaque capabilities in
  the source; they are passed in as explicit function parameters.  A Python
  call that can raise is modelled as `Except String`.
- Vectors are opaque payloads to everything verified here, so their entries
  are modelled as `Int` (the numeric values are never inspected, only
  emptiness of the list, which mirrors Python list truthiness).
- The Chroma vector store is not part of the repository; per the spec it is
  an opaque service with upsert-by-id collections, and it is modelled that
  way (`Collection.add`).
-/

/-- Modelled vector: the pipeline only ever tests vectors for emptiness
(Python truthiness), so entries are opaque `Int` payloads. -/
abbrev Vec := List Int

/-- Modelled decoded image: an opaque token. -/
abbrev Img := Nat

/-- Modelled Python metadata dict with string values, as written by the
ingestion code. -/
abbrev Meta := List (String × String)

/-- An artwork record (`artworks.json` data object): a sparse mapping; every
field may be absent.  Fields are exactly those read by the source. -/
structure ArtworkRecord where
  id : Option Int := none
  title : Option String := none
  artist_title : Option String := none
  date_display : Option String := none
  place_of_origin : Option String := none
  medium_display : Option String := none
  image_id : Option String := none
  is_public_domain : Option Bool := none
  subject_titles : List String := []
  classification_titles : List String := []
  term_titles : List String := []
  material_titles : List String := []
deriving Repr, DecidableEq

/-- Python `str(x)` for `x = artwork.get("id")`: `str(None) = "None"`,
integers print in decimal. -/
def pyStr (o : Option Int) : String :=
  match o with
  | none => "None"
  | some i => toString i

/-- Python `artwork.get("id", "")` rendered into an f-string: absent ids
contribute the empty string. -/
def pyStrGetD (o : Option Int) : String :=
  match o with
  | none => ""
  | some i => toString i

/-- One stored collection entry: vector, metadata, optional source document
(`documents=[...]` in Chroma calls). -/
structure CollectionEntry where
  vector : Vec
  metadata : Meta
  document : Option String
deriving Repr, DecidableEq

/-- A vector-store collection: an association list from entry id to entry.
Modelled from the spec: the vector store itself is outside the repository
(an opaque service); per §4.5 an upsert with an existing id replaces the
prior entry, which `Collection.add` implements. -/
structure Collection where
  entries : List (String × CollectionEntry)
deriving Repr, DecidableEq

def emptyCollection : Collection := ⟨[]⟩

/-- Modelled from the spec: collection-scoped upsert-by-id — any prior entry
with the same id is replaced, never duplicated. -/
def Collection.add (c : Collection) (id : String) (e : CollectionEntry) : Collection :=
  ⟨c.entries.filter (fun p => p.1 != id) ++ [(id, e)]⟩

def Collection.keys (c : Collection) : List String :=
  c.entries.map (fun p => p.1)

/-- Number of stored entries carrying a given id. -/
def Collection.countKey (c : Collection) (id : String) : Nat :=
  (c.entries.filter (fun p => p.1 == id)).length

/-- The entry currently stored under an id, if any. -/
def Collection.lookupEntry (c : Collection) (id : String) : Option CollectionEntry :=
  ((c.entries.filter (fun p => p.1 == id)).head?).map (fun p => p.2)

/-- Squared L2 distance between modelled vectors (trailing entries of the
longer vector are ignored, as both stored and query vectors share the model
dimension). -/
def sqDist (a b : Vec) : Int :=
  ((a.zip b).map (fun p => (p.1 - p.2) ^ 2)).sum

/-- Modelled from the spec: nearest-neighbor query of one collection
(§4.5) — entries ranked by ascending distance to the query vector, top
`k` returned as (id, metadata) pairs.  The ranking mechanism lives inside
the external vector store; only which collection is queried matters to the
claims below. -/
def Collection.query (c : Collection) (v : Vec) (k : Nat) : List (String × Meta) :=
  ((List.insertionSort (fun p q => sqDist p.2.vector v ≤ sqDist q.2.vector v)
      c.entries).take k).map (fun p => (p.1, p.2.metadata))

/-! ## Record normalizer: `build_embedding_text` (text_embedder.py 47-103) -/

/-- The ASCII whitespace characters stripped by Python `str.strip()` (the
full Python set also has some exotic Unicode spaces, which no artwork field
or composed text in this system contains). -/
def pyIsSpace (c : Char) : Bool :=
  c == ' ' || c == '\t' || c == '\n' || c == '\r' || c == '\x0b' || c == '\x0c'

/-- Python `str.strip()`: drop leading and trailing whitespace. -/
def pyStrip (s : String) : String :=
  ⟨((s.data.dropWhile pyIsSpace).reverse.dropWhile pyIsSpace).reverse⟩

/-- `[t for t in subject_titles if t] or [t for t in classification_titles if t]`,
then `subjects[0]` if non-empty. -/
def first_subject (artwork : ArtworkRecord) : Option String :=
  match artwork.subject_titles.filter (fun t => t != "") with
  | [] => (artwork.classification_titles.filter (fun t => t != "")).head?
  | t :: _ => some t

/-- The union of the four tag lists with falsy (empty) tags dropped, in
iteration order — the elements inserted into the Python `set`. -/
def tag_union (artwork : ArtworkRecord) : List String :=
  (artwork.subject_titles ++ artwork.classification_titles ++
      artwork.term_titles ++ artwork.material_titles).filter (fun t => t != "")

/-- Structural lexicographic (code-point) comparison of char lists: the
string order Python `sorted` uses. -/
def charListLe : List Char → List Char → Bool
  | [], _ => true
  | _ :: _, [] => false
  | c :: cs, d :: ds =>
    if c < d then true
    else if d < c then false
    else charListLe cs ds

/-- Python string comparison, as used by `sorted(tags)`. -/
def strLe (a b : String) : Bool := charListLe a.data b.data

/-- `sorted(tags)` for the Python set `tags`: deduplicated, lexicographically
sorted tag list. -/
def sorted_tags (artwork : ArtworkRecord) : List String :=
  List.insertionSort (fun a b => strLe a b = true) (tag_union artwork).dedup

/-- The one-line description parts (subject/classification pick, medium,
"by artist", "from date", "(place)"), filtered for present fields. -/
def desc_parts (artwork : ArtworkRecord) : List String :=
  (match first_subject artwork with
    | some s => [s]
    | none => []) ++
  (if artwork.medium_display.getD "" != "" then [artwork.medium_display.getD ""] else []) ++
  (if artwork.artist_title.getD "" != "" then ["by " ++ artwork.artist_title.getD ""] else []) ++
  (if artwork.date_display.getD "" != "" then ["from " ++ artwork.date_display.getD ""] else []) ++
  (if artwork.place_of_origin.getD "" != "" then ["(" ++ artwork.place_of_origin.getD "" ++ ")"] else [])

/-- The `bits` list: title line, description line, tags line — each included
only when non-empty. -/
def bits (artwork : ArtworkRecord) : List String :=
  (if artwork.title.getD "" != "" then [artwork.title.getD ""] else []) ++
  (if desc_parts artwork != [] then [String.intercalate " " (desc_parts artwork)] else []) ++
  (if sorted_tags artwork != [] then
      ["Tags: " ++ String.intercalate ", " (sorted_tags artwork)] else [])

/-- `build_embedding_text` (text_embedder.py 47-103): joins the bits with
newlines, strips, and falls back to "Artwork <id>" when empty. -/
def build_embedding_text (artwork : ArtworkRecord) : String :=
  let text := pyStrip (String.intercalate "\n" (bits artwork))
  if text == "" then "Artwork " ++ pyStrGetD artwork.id else text

/-! ## Embedding provider (text_embedder.py 106-135) -/

/-- `embed_text` (text_embedder.py 106-124): blank / whitespace-only input
returns the empty vector without touching the model; otherwise the model
inference (`embedFn`, which may raise) produces the vector. -/
def embed_text (embedFn : String → Except String Vec) (text : String) :
    Except String Vec :=
  if pyStrip text == "" then .ok [] else embedFn text

/-- `embed_artwork_text` (text_embedder.py 127-135): id, vector and composed
text for one record. -/
def embed_artwork_text (embedFn : String → Except String Vec)
    (artwork : ArtworkRecord) : Except String (Option Int × Vec × String) :=
  let embedding_text := build_embedding_text artwork
  match embed_text embedFn embedding_text with
  | .error e => .error e
  | .ok v => .ok (artwork.id, v, embedding_text)

/-! ## Image eligibility and image embedding
(`src/backend/artic.py`, `src/backend/embeddings/image_embedder.py`) -/

/-- `build_iiif_url` (artic.py 30-31). -/
def build_iiif_url (image_id : String) (iiif_base_url : String)
    (size : String := "843,") : String :=
  iiif_base_url ++ "/" ++ image_id ++ "/full/" ++ size ++ "/0/default.jpg"

/-- `build_image_url` (image_embedder.py 50-56): requires a truthy
`image_id` AND a true `is_public_domain` flag (absent defaults to false). -/
def build_image_url (artwork : ArtworkRecord) (iiif_base_url : String) :
    Option String :=
  match artwork.image_id with
  | none => none
  | some image_id =>
    if image_id == "" then none
    else if artwork.is_public_domain.getD false then
      some (build_iiif_url image_id iiif_base_url)
    else none

/-- `embed_artwork_image` (image_embedder.py 96-126): `none` when the record
is ineligible or the download (`fetch`, soft-failing) returns nothing;
otherwise the image-model inference (`embedImg`, which may raise) produces
the vector. -/
def embed_artwork_image (fetch : String → Option Img)
    (embedImg : Img → Except String Vec) (artwork : ArtworkRecord)
    (iiif_base_url : String) : Except String (Option Vec) :=
  match build_image_url artwork iiif_base_url with
  | none => .ok none
  | some url =>
    match fetch url with
    | none => .ok none
    | some img =>
      match embedImg img with
      | .error e => .error e
      | .ok v => .ok (some v)

/-! ## Ingestion pipeline loops (pipeline.py) -/

/-- Running counters and target collection of one pipeline loop; `count`
and `saved` are the processed / saved counters the loop reports. -/
structure RunState where
  count : Nat
  saved : Nat
  collection : Collection
deriving Repr, DecidableEq

/-- The store write, which may raise (`collection.add` inside try/except);
`specAdd` below is the non-raising instantiation. -/
abbrev TryAdd := Collection → String → CollectionEntry → Except String Collection

/-- The store write that always succeeds, with the upsert semantics of the
modelled collection. -/
def specAdd : TryAdd := fun c id e => .ok (c.add id e)

/-- One iteration of `generate_text_embeddings_for_artworks`
(pipeline.py 41-67): embed (exception skips the record), skip empty
vectors, store with metadata `{"type": "text"}` and the composed text as
document (store exception skips the record). -/
def textStep (embedFn : String → Except String Vec) (tryAdd : TryAdd)
    (s : RunState) (artwork : ArtworkRecord) : RunState :=
  match embed_artwork_text embedFn artwork with
  | .error _ => { s with count := s.count + 1 }
  | .ok (artwork_id, embedding, embedding_text) =>
    if embedding == [] then { s with count := s.count + 1 }
    else
      match tryAdd s.collection (pyStr artwork_id)
          ⟨embedding, [("type", "text")], some embedding_text⟩ with
      | .error _ => { s with count := s.count + 1 }
      | .ok c => ⟨s.count + 1, s.saved + 1, c⟩

/-- `generate_text_embeddings_for_artworks` (pipeline.py 15-74), returning
the final counters and collection. -/
def generate_text_embeddings_for_artworks (embedFn : String → Except String Vec)
    (tryAdd : TryAdd) (artworks : List ArtworkRecord) (collection : Collection) :
    RunState :=
  artworks.foldl (textStep embedFn tryAdd) ⟨0, 0, collection⟩

/-- One iteration of `generate_image_embeddings_for_artworks`
(pipeline.py 113-147): embed (exception skips the record), skip `None`
results, store with metadata `{"type": "image"}` (store exception skips
the record). -/
def imageStep (fetch : String → Option Img) (embedImg : Img → Except String Vec)
    (iiif_base_url : String) (tryAdd : TryAdd) (s : RunState)
    (artwork : ArtworkRecord) : RunState :=
  match embed_artwork_image fetch embedImg artwork iiif_base_url with
  | .error _ => { s with count := s.count + 1 }
  | .ok none => { s with count := s.count + 1 }
  | .ok (some embedding) =>
    match tryAdd s.collection (pyStr artwork.id)
        ⟨embedding, [("type", "image")], none⟩ with
    | .error _ => { s with count := s.count + 1 }
    | .ok c => ⟨s.count + 1, s.saved + 1, c⟩

/-- `generate_image_embeddings_for_artworks` (pipeline.py 76-155). -/
def generate_image_embeddings_for_artworks (fetch : String → Option Img)
    (embedImg : Img → Except String Vec) (iiif_base_url : String)
    (tryAdd : TryAdd) (artworks : List ArtworkRecord) (collection : Collection) :
    RunState :=
  artworks.foldl (imageStep fetch embedImg iiif_base_url tryAdd) ⟨0, 0, collection⟩

/-! ## The build script (`backend/scripts/build_embeddings.py` main) -/

/-- The two collections handled by `main`. -/
structure MainState where
  textCollection : Collection
  imageCollection : Collection
deriving Repr, DecidableEq

def mainEmpty : MainState := ⟨emptyCollection, emptyCollection⟩

/-- `artwork.get("title") or "Unknown title"` (build_embeddings.py 89). -/
def sanitized_title (artwork : ArtworkRecord) : String :=
  if artwork.title.getD "" == "" then "Unknown title" else artwork.title.getD ""

/-- `artwork.get("artist_title") or "Unknown artist"` (build_embeddings.py 90). -/
def sanitized_artist (artwork : ArtworkRecord) : String :=
  if artwork.artist_title.getD "" == "" then "Unknown artist"
  else artwork.artist_title.getD ""

/-- The sanitized metadata dict built at build_embeddings.py 92-96. -/
def hotfix_meta (artwork : ArtworkRecord) (image_id : String) : Meta :=
  [("image_id", image_id), ("title", sanitized_title artwork),
    ("artist_title", sanitized_artist artwork)]

/-- build_embeddings.py line 101 unpacks the value of `embed_artwork_text`
(a 3-tuple `(artwork_id, embedding, embedding_text)`) into only two
variables, so the statement raises `ValueError: too many values to unpack`
for every record; the surrounding handler then leaves the text vector
`None`.  The call is modelled as this always-raising step. -/
def main_text_unpack (_artwork : ArtworkRecord) : Except String (Vec × String) :=
  .error "too many values to unpack (expected 2)"

/-- One iteration of the loop in `main` (build_embeddings.py 78-141):
the image_id hotfix skips records without an image reference entirely;
the text half stores only when its vector is truthy (it never is, see
`main_text_unpack`); the image half stores when image embedding yields a
truthy vector.  Both halves use the sanitized metadata. -/
def mainStep (fetch : String → Option Img) (embedImg : Img → Except String Vec)
    (iiif_base_url : String) (s : MainState) (artwork : ArtworkRecord) :
    MainState :=
  match artwork.image_id with
  | none => s
  | some image_id =>
    let meta := hotfix_meta artwork image_id
    let s1 :=
      match main_text_unpack artwork with
      | .error _ => s
      | .ok (v, doc) =>
        if v == [] then s
        else { s with textCollection :=
          s.textCollection.add (pyStr artwork.id) ⟨v, meta, some doc⟩ }
    match embed_artwork_image fetch embedImg artwork iiif_base_url with
    | .error _ => s1
    | .ok none => s1
    | .ok (some v) =>
      if v == [] then s1
      else { s1 with imageCollection :=
        s1.imageCollection.add (pyStr artwork.id) ⟨v, meta, none⟩ }

/-- `main` (build_embeddings.py 56-144) from a given starting pair of
collections (a fresh run starts from `mainEmpty`). -/
def build_embeddings_main (fetch : String → Option Img)
    (embedImg : Img → Except String Vec) (iiif_base_url : String)
    (records : List ArtworkRecord) (init : MainState) : MainState :=
  records.foldl (mainStep fetch embedImg iiif_base_url) init

/-! ## Query dispatch -/

/-- The state a query runs against: the two collections opened at module
scope plus the opaque encoders (the text model encode call, the image
model text tower, the image tower). -/
structure QueryCtx where
  textCollection : Collection
  imageCollection : Collection
  imageTextEncode : String → Vec
  imageEncode : Img → Vec

namespace GetResultsScript

/-- `get_results` (backend/scripts/get_results.py 18-66): dispatch on the
mode string.  `text` calls `.encode` on the value of
`load_text_embedding_model`, but that loader returns a
`(model, processor, device)` tuple (text_embedder.py 23-44), so line 21
raises `AttributeError` for every text-mode query; `vision` demands a query
image and raises a `ValueError` without one, otherwise embeds the image and
queries the image collection; `hybrid` embeds the query text through the
image model text tower and queries the image collection; any other mode
raises. -/
def get_results (ctx : QueryCtx) (query_text : String) (query_image : Option Img)
    (mode : String) (n_results : Nat) : Except String (List (String × Meta)) :=
  if mode == "text" then
    .error "\x27tuple\x27 object has no attribute \x27encode\x27"
  else if mode == "vision" then
    match query_image with
    | none => .error "query_image must be provided for vision mode"
    | some img =>
      .ok (ctx.imageCollection.query (ctx.imageEncode img) n_results)
  else if mode == "hybrid" then
    .ok (ctx.imageCollection.query (ctx.imageTextEncode query_text) n_results)
  else
    .error ("Unsupported mode: " ++ mode)

end GetResultsScript

namespace BackendQuery

/-- `query_via_text` (src/backend/query.py 8-37): calls
`text_model.encode` on the `(model, processor, device)` tuple returned by
`load_text_embedding_model` (query.py 23-24), so every text-mode query
raises `AttributeError` before reaching the text collection. -/
def query_via_text (_ctx : QueryCtx) (_query_text : String) (_n_results : Nat) :
    Except String (List (String × Meta)) :=
  .error "\x27tuple\x27 object has no attribute \x27encode\x27"

/-- `query_via_images` (src/backend/query.py 40-82): the image model text
tower against the image collection. -/
def query_via_images (ctx : QueryCtx) (query_text : String) (n_results : Nat) :
    Except String (List (String × Meta)) :=
  .ok (ctx.imageCollection.query (ctx.imageTextEncode query_text) n_results)

/-- `get_results` (src/backend/query.py 85-103): only the modes "text" and
"images" exist; every other mode string raises a `ValueError`. -/
def get_results (ctx : QueryCtx) (query_text : String) (mode : String)
    (n_results : Nat) : Except String (List (String × Meta)) :=
  if mode == "text" then query_via_text ctx query_text n_results
  else if mode == "images" then query_via_images ctx query_text n_results
  else .error ("Unsupported mode: " ++ mode ++ ". Use \x27text\x27 or \x27images\x27.")

end BackendQuery

/-! ## Evaluation harness (`scripts/evaluate.py`) -/

/-- `positions_to_recall_curve` (evaluate.py 48-56): positions are 1-based
ranks (or `none` when the target was not retrieved / the query errored);
recall@k is the fraction of positions that are at most k. -/
def positions_to_recall_curve (positions : List (Option Nat)) (k : Nat) : ℚ :=
  let total := positions.length
  let hits := (positions.filter (fun p =>
    match p with
    | some v => v ≤ k
    | none => false)).length
  if 0 < total then (hits : ℚ) / (total : ℚ) else 0

/-- The latched prefix-hit computation of `evaluate_artist_retrieval`
(evaluate.py 131-137): `prefixHitAux metas artist i` is the value of
`prefix_hit[i]` — once a same-artist meta is seen at a rank at most `i`,
the flag stays true. -/
def prefixHitAux (metas : List Meta) (artist : String) : Nat → Bool
  | 0 => false
  | i + 1 =>
    prefixHitAux metas artist i ||
      (decide (i < metas.length) &&
        ((metas.getD i []).lookup "artist_title" == some artist))

/-- The artist-recall curve of `evaluate_artist_retrieval`
(evaluate.py 106-148) over the evaluated items: each item is its query
artist together with `some` returned metadata prefix, or `none` when the
query raised (errors stay in the denominator and never count as hits). -/
def artist_recall_curve (items : List (String × Option (List Meta))) (k : Nat) : ℚ :=
  let total := items.length
  let hits := (items.filter (fun it =>
    match it.2 with
    | none => false
    | some metas => prefixHitAux metas it.1 k)).length
  if 0 < total then (hits : ℚ) / (total : ℚ) else 0

/-! ## Concrete inputs and predicates used by the claim theorems -/

/-- A concrete query context for the C3 counterexample. -/
def c3_ctx : QueryCtx :=
  { textCollection := emptyCollection
    imageCollection := emptyCollection
    imageTextEncode := fun _ => [0]
    imageEncode := fun _ => [0] }

/-- The first record of the end-to-end scenario of C4: text only, no image
reference. -/
def c4_r1 : ArtworkRecord :=
  { id := some 1, title := some "Sunflowers", artist_title := some "Van Gogh" }

/-- The second record of the end-to-end scenario of C4: has an image
reference (but, as given, no public-domain flag). -/
def c4_r2 : ArtworkRecord :=
  { id := some 2, title := some "Starry Night", artist_title := some "Van Gogh",
    image_id := some "abc123" }

/-- The second C4 record with the public-domain flag the image-eligibility
check (image_embedder.py 50-56) requires. -/
def c4_r2pd : ArtworkRecord := { c4_r2 with is_public_domain := some true }

/-- Two otherwise-identical records whose subject tag list differs only in
element order. -/
def c5_recA : ArtworkRecord := { title := some "T", subject_titles := ["Oil", "Painting"] }

/-- Reordering of `c5_recA`'s subject tag list. -/
def c5_recB : ArtworkRecord := { title := some "T", subject_titles := ["Painting", "Oil"] }

/-- Witness record for C5: tag order permuted through `term_titles`. -/
def c5_recW : ArtworkRecord := { title := some "T", term_titles := ["b", "a"] }

/-- One of the ten records of the C6 fault-isolation scenario. -/
def c6_record (i : Int) : ArtworkRecord :=
  { id := some i, image_id := some ("img" ++ toString i), is_public_domain := some true }

/-- The ten records of the C6 scenario. -/
def c6_records : List ArtworkRecord :=
  [c6_record 1, c6_record 2, c6_record 3, c6_record 4, c6_record 5,
    c6_record 6, c6_record 7, c6_record 8, c6_record 9, c6_record 10]

/-- A fetch that always fails exactly for record 5 and succeeds for every
other record. -/
def c6_fetch : String → Option Img :=
  fun url => if url == build_iiif_url "img5" "b" then none else some 0

/-- C8 part 3 needs the loop-skip behavior; this is the record used by its
witness. -/
def c8_rec : ArtworkRecord := { id := some 7 }

/-- The metadata shape claim C7 asserts for every stored entry: image
reference, title and artist all present and non-null. -/
def metaSanitized (m : Meta) : Prop :=
  (∃ v, m.lookup "image_id" = some v) ∧
  (∃ t, m.lookup "title" = some t ∧ t ≠ "") ∧
  (∃ a, m.lookup "artist_title" = some a ∧ a ≠ "")

/-- Record for the C7 counterexample: fully populated, ingested through the
pipeline text loop. -/
def c7_rec : ArtworkRecord :=
  { id := some 3, title := some "Lake", artist_title := some "Monet",
    image_id := some "xyz" }

/-- Record for the C7 witness: image-eligible, no artist (sanitized to the
placeholder). -/
def c7_wrec : ArtworkRecord :=
  { id := some 4, title := some "Field", image_id := some "w1",
    is_public_domain := some true }

/-- Concrete rank positions for the C9 witness: one query found at rank 1,
one never found. -/
def c9_positions : List (Option Nat) := [some 1, none]

/-- Concrete artist-query outcomes for the C9 witness: one query whose
top-1 result shares the artist, one query that errored. -/
def c9_items : List (String × Option (List Meta)) :=
  [("Monet", some [[("artist_title", "Monet")]]), ("Degas", none)]

/-- The record without an "id" field used in the C10 theorem and witness. -/
def c10_noid : ArtworkRecord := { title := some "X" }

/-- The record with integer id 2 used in the C10 theorem. -/
def c10_id2 : ArtworkRecord := { id := some 2, title := some "Y" }

/-! ## Helper lemmas -/

theorem charListLe_total : ∀ a b, charListLe a b = true ∨ charListLe b a = true := by
  intro a
  induction a with
  | nil => intro b; exact Or.inl rfl
  | cons c cs ih =>
    intro b
    cases b with
    | nil => exact Or.inr rfl
    | cons d ds =>
      rcases lt_trichotomy c d with h | h | h
      · exact Or.inl (by simp [charListLe, h])
      · subst h
        rcases ih ds with h2 | h2
        · exact Or.inl (by simp [charListLe, h2])
        · exact Or.inr (by simp [charListLe, h2])
      · exact Or.inr (by simp [charListLe, h])

theorem charListLe_antisymm : ∀ a b, charListLe a b = true →
    charListLe b a = true → a = b := by
  intro a
  induction a with
  | nil =>
    intro b h1 h2
    cases b with
    | nil => rfl
    | cons d ds => simp [charListLe] at h2
  | cons c cs ih =>
    intro b h1 h2
    cases b with
    | nil => simp [charListLe] at h1
    | cons d ds =>
      rcases lt_trichotomy c d with h | h | h
      · simp [charListLe, h, lt_asymm h] at h2
      · subst h
        simp only [charListLe, lt_self_iff_false, if_false] at h1 h2
        rw [ih ds h1 h2]
      · simp [charListLe, h, lt_asymm h] at h1

theorem charListLe_trans : ∀ a b c, charListLe a b = true →
    charListLe b c = true → charListLe a c = true := by
  intro a
  induction a with
  | nil => intro b c h1 h2; rfl
  | cons x xs ih =>
    intro b c h1 h2
    cases b with
    | nil => simp [charListLe] at h1
    | cons y ys =>
      cases c with
      | nil => simp [charListLe] at h2
      | cons z zs =>
        rcases lt_trichotomy x y with hxy | hxy | hxy
        · rcases lt_trichotomy y z with hyz | hyz | hyz
          · simp [charListLe, lt_trans hxy hyz]
          · subst hyz; simp [charListLe, hxy]
          · simp [charListLe, hyz, lt_asymm hyz] at h2
        · subst hxy
          simp only [charListLe, lt_self_iff_false, if_false] at h1
          rcases lt_trichotomy x z with hxz | hxz | hxz
          · simp [charListLe, hxz]
          · subst hxz
            simp only [charListLe, lt_self_iff_false, if_false] at h2 ⊢
            exact ih ys zs h1 h2
          · simp [charListLe, hxz, lt_asymm hxz] at h2
        · simp [charListLe, hxy, lt_asymm hxy] at h1

instance : IsTotal String (fun a b => strLe a b = true) :=
  ⟨fun a b => charListLe_total a.data b.data⟩

instance : IsTrans String (fun a b => strLe a b = true) :=
  ⟨fun a b c => charListLe_trans a.data b.data c.data⟩

instance : IsAntisymm String (fun a b => strLe a b = true) :=
  ⟨fun a b h1 h2 => by
    cases a with
    | mk da =>
      cases b with
      | mk db => exact congrArg String.mk (charListLe_antisymm da db h1 h2)⟩

theorem add_add_same (c : Collection) (id : String) (e : CollectionEntry) :
    (c.add id e).add id e = c.add id e := by
  simp [Collection.add, List.filter_append, List.filter_filter, Bool.and_self]

theorem countKey_add (c : Collection) (id : String) (e : CollectionEntry) :
    (c.add id e).countKey id = 1 := by
  simp [Collection.add, Collection.countKey, List.filter_append, List.filter_filter]

theorem lookupEntry_add (c : Collection) (id : String) (e : CollectionEntry) :
    (c.add id e).lookupEntry id = some e := by
  simp [Collection.add, Collection.lookupEntry, List.filter_append, List.filter_filter]

theorem keys_add_mem (c : Collection) (id k : String) (e : CollectionEntry)
    (h : k ∈ (c.add id e).keys) : k ∈ c.keys ∨ k = id := by
  simp only [Collection.add, Collection.keys, List.map_append, List.mem_append,
    List.mem_map, List.map_cons, List.map_nil, List.mem_cons,
    List.not_mem_nil, or_false] at h ⊢
  rcases h with ⟨p, hp, hk⟩ | hk
  · exact Or.inl ⟨p, List.mem_of_mem_filter hp, hk⟩
  · exact Or.inr hk

theorem textStep_count (f : String → Except String Vec) (t : TryAdd)
    (s : RunState) (a : ArtworkRecord) :
    (textStep f t s a).count = s.count + 1 := by
  unfold textStep
  cases hE : embed_artwork_text f a with
  | error e => rfl
  | ok v =>
    obtain ⟨i, emb, txt⟩ := v
    cases hemb : (emb == []) with
    | true => simp [hemb]
    | false =>
      simp only [hemb, Bool.false_eq_true, if_false]
      cases t s.collection (pyStr i) ⟨emb, [("type", "text")], some txt⟩ <;> rfl

theorem imageStep_count (fe : String → Option Img) (ei : Img → Except String Vec)
    (u : String) (t : TryAdd) (s : RunState) (a : ArtworkRecord) :
    (imageStep fe ei u t s a).count = s.count + 1 := by
  unfold imageStep
  split
  · rfl
  · rfl
  · split <;> rfl

theorem foldl_textStep_count (f : String → Except String Vec) (t : TryAdd)
    (as : List ArtworkRecord) (s : RunState) :
    (as.foldl (textStep f t) s).count = s.count + as.length := by
  induction as generalizing s with
  | nil => simp
  | cons a as ih =>
    rw [List.foldl_cons, ih, textStep_count]
    simp; omega

theorem foldl_imageStep_count (fe : String → Option Img)
    (ei : Img → Except String Vec) (u : String) (t : TryAdd)
    (as : List ArtworkRecord) (s : RunState) :
    (as.foldl (imageStep fe ei u t) s).count = s.count + as.length := by
  induction as generalizing s with
  | nil => simp
  | cons a as ih =>
    rw [List.foldl_cons, ih, imageStep_count]
    simp; omega

theorem length_filter_mono {α : Type} (l : List α) (p q : α → Bool)
    (h : ∀ a, p a = true → q a = true) :
    (l.filter p).length ≤ (l.filter q).length := by
  induction l with
  | nil => simp
  | cons a l ih =>
    cases hp : p a with
    | true =>
      have hq := h a hp
      simp only [List.filter_cons, hp, hq, if_true, List.length_cons]
      exact Nat.succ_le_succ ih
    | false =>
      cases hq : q a with
      | true =>
        simp only [List.filter_cons, hp, hq, Bool.false_eq_true, if_false,
          if_true, List.length_cons]
        exact Nat.le_succ_of_le ih
      | false =>
        simpa only [List.filter_cons, hp, hq, Bool.false_eq_true, if_false] using ih

theorem prefixHitAux_step (m : List Meta) (a : String) (i : Nat)
    (h : prefixHitAux m a i = true) : prefixHitAux m a (i + 1) = true := by
  simp [prefixHitAux, h]

theorem prefixHitAux_mono (m : List Meta) (a : String) {i j : Nat} (hij : i ≤ j)
    (h : prefixHitAux m a i = true) : prefixHitAux m a j = true := by
  induction j, hij using Nat.le_induction with
  | base => exact h
  | succ n hn ih => exact prefixHitAux_step m a n ih

theorem ratio_mono {h1 h2 t : Nat} (hh : h1 ≤ h2) :
    (if 0 < t then (h1 : ℚ) / t else 0) ≤ (if 0 < t then (h2 : ℚ) / t else 0) := by
  by_cases ht : 0 < t
  · simp only [if_pos ht]
    have h1 : (h1 : ℚ) ≤ (h2 : ℚ) := by exact_mod_cast hh
    have ht2 : (0 : ℚ) ≤ (t : ℚ) := by positivity
    exact div_le_div_of_nonneg_right h1 ht2
  · simp [ht]

theorem insertionSort_eq_of_perm {l1 l2 : List String} (h : l1.Perm l2) :
    List.insertionSort (fun a b => strLe a b = true) l1 =
      List.insertionSort (fun a b => strLe a b = true) l2 := by
  refine List.eq_of_perm_of_sorted ?_ (List.sorted_insertionSort _ _)
    (List.sorted_insertionSort _ _)
  exact ((List.perm_insertionSort _ _).trans h).trans
    (List.perm_insertionSort _ _).symm

theorem embed_artwork_text_parts (f : String → Except String Vec)
    (a : ArtworkRecord) (i : Option Int) (emb : Vec) (txt : String)
    (h : embed_artwork_text f a = .ok (i, emb, txt)) :
    i = a.id ∧ txt = build_embedding_text a := by
  simp only [embed_artwork_text] at h
  cases hT : embed_text f (build_embedding_text a) with
  | error e => rw [hT] at h; cases h
  | ok w => rw [hT] at h; cases h; exact ⟨rfl, rfl⟩

/-! ## Claim theorems -/

/-- C2: for every query text q and every k, a query in mode "hybrid" embeds
q through the image model text tower and returns the top-k neighbors of the
image collection — never the text collection: the result is a function of
the image collection alone (replacing the text collection changes nothing),
and the alternate entry point `query_via_images` does the same. -/
theorem c2_hybrid_queries_image_collection :
    ∀ (ctx : QueryCtx) (q : String) (img : Option Img) (k : Nat) (tc : Collection),
      GetResultsScript.get_results ctx q img "hybrid" k =
        .ok (ctx.imageCollection.query (ctx.imageTextEncode q) k) ∧
      GetResultsScript.get_results { ctx with textCollection := tc } q img "hybrid" k =
        GetResultsScript.get_results ctx q img "hybrid" k ∧
      BackendQuery.query_via_images ctx q k =
        .ok (ctx.imageCollection.query (ctx.imageTextEncode q) k) :=
  fun _ _ _ _ _ => ⟨rfl, rfl, rfl⟩

/-- C3 counterexample: a "vision" query with a text-only input raises
`ValueError: query_image must be provided for vision mode`
(get_results.py 24-26) — it does NOT produce a text-mode embedding and
query the text collection, and it does not even behave like mode "text",
whose own failure (the `AttributeError` from calling `.encode` on the
model-bundle tuple, get_results.py 21) is a different error. -/
theorem c3_vision_counterexample :
    GetResultsScript.get_results c3_ctx "sunset" none "vision" 3 =
      .error "query_image must be provided for vision mode" ∧
    GetResultsScript.get_results c3_ctx "sunset" none "vision" 3 ≠
      GetResultsScript.get_results c3_ctx "sunset" none "text" 3 := by
  refine ⟨rfl, ?_⟩
  intro h
  rw [show GetResultsScript.get_results c3_ctx "sunset" none "vision" 3 =
      .error "query_image must be provided for vision mode" from rfl,
    show GetResultsScript.get_results c3_ctx "sunset" none "text" 3 =
      .error "\x27tuple\x27 object has no attribute \x27encode\x27" from rfl] at h
  injection h with h2
  exact absurd h2 (by decide)

/-- C3 amended: a "vision" query with no query image raises a ValueError in
`backend/scripts/get_results.py`, and the alternate dispatcher in
`src/backend/query.py` supports only the modes "text" and "images", so
"vision" raises an unsupported-mode ValueError there; neither falls back
to text-mode behavior. -/
theorem c3_vision_requires_image :
    ∀ (ctx : QueryCtx) (q : String) (k : Nat),
      GetResultsScript.get_results ctx q none "vision" k =
        .error "query_image must be provided for vision mode" ∧
      BackendQuery.get_results ctx q "vision" k =
        .error "Unsupported mode: vision. Use \x27text\x27 or \x27images\x27." :=
  fun _ _ _ => ⟨rfl, rfl⟩

/-- C1: ingesting the same record twice converges — the second text-pipeline
run over the same record leaves the collection unchanged, at most one entry
is keyed by the record id, the image pipeline and the build script behave
the same way, and on the modelled store an upsert with an existing id
replaces the entry rather than appending a duplicate or failing. -/
theorem c1_repeated_ingestion_idempotent :
    ∀ (f : String → Except String Vec) (fe : String → Option Img)
      (ei : Img → Except String Vec) (u : String) (r : ArtworkRecord),
      (generate_text_embeddings_for_artworks f specAdd [r]
          (generate_text_embeddings_for_artworks f specAdd [r]
            emptyCollection).collection).collection =
        (generate_text_embeddings_for_artworks f specAdd [r]
          emptyCollection).collection ∧
      (generate_text_embeddings_for_artworks f specAdd [r]
          emptyCollection).collection.countKey (pyStr r.id) ≤ 1 ∧
      (generate_image_embeddings_for_artworks fe ei u specAdd [r]
          (generate_image_embeddings_for_artworks fe ei u specAdd [r]
            emptyCollection).collection).collection =
        (generate_image_embeddings_for_artworks fe ei u specAdd [r]
          emptyCollection).collection ∧
      build_embeddings_main fe ei u [r] (build_embeddings_main fe ei u [r] mainEmpty) =
        build_embeddings_main fe ei u [r] mainEmpty ∧
      (∀ (c : Collection) (id : String) (e e2 : CollectionEntry),
        ((c.add id e).add id e2).countKey id = 1 ∧
        ((c.add id e).add id e2).lookupEntry id = some e2) := by
  intro f fe ei u r
  refine ⟨?_, ?_, ?_, ?_, ?_⟩
  · unfold generate_text_embeddings_for_artworks
    simp only [List.foldl_cons, List.foldl_nil]
    unfold textStep
    cases hE : embed_artwork_text f r with
    | error e => rfl
    | ok v =>
      obtain ⟨i, emb, txt⟩ := v
      cases hemb : (emb == []) with
      | true => simp [hemb]
      | false => simp [hemb, specAdd, add_add_same]
  · unfold generate_text_embeddings_for_artworks
    simp only [List.foldl_cons, List.foldl_nil]
    unfold textStep
    cases hE : embed_artwork_text f r with
    | error e =>
      simp [Collection.countKey, emptyCollection]
    | ok v =>
      obtain ⟨i, emb, txt⟩ := v
      cases hemb : (emb == []) with
      | true => simp [hemb, Collection.countKey, emptyCollection]
      | false =>
        have hid : i = r.id := (embed_artwork_text_parts f r i emb txt hE).1
        simp only [hemb, Bool.false_eq_true, if_false, specAdd]
        rw [hid]
        exact Nat.le_of_eq (countKey_add _ _ _)
  · unfold generate_image_embeddings_for_artworks
    simp only [List.foldl_cons, List.foldl_nil]
    unfold imageStep
    cases hE : embed_artwork_image fe ei r u with
    | error e => rfl
    | ok v =>
      cases v with
      | none => rfl
      | some emb => simp [specAdd, add_add_same]
  · unfold build_embeddings_main
    simp only [List.foldl_cons, List.foldl_nil]
    unfold mainStep main_text_unpack
    cases hid : r.image_id with
    | none => simp [hid]
    | some iid =>
      simp only [hid]
      cases hE : embed_artwork_image fe ei r u with
      | error e => simp
      | ok v =>
        cases v with
        | none => simp
        | some emb =>
          cases hemb : (emb == []) with
          | true => simp [hemb]
          | false => simp [hemb, add_add_same]
  · intro c id e e2
    exact ⟨countKey_add _ _ _, lookupEntry_add _ _ _⟩

/-- C4 counterexample: running the build script `main` on exactly the two
claimed records (with every fetch succeeding and the embedding model
总 producing a non-empty vector) leaves BOTH collections empty — not text
ids 1 and 2 plus image id 2 as claimed.  Record 1 is skipped entirely by
the image_id hotfix (build_embeddings.py 84-87); record 2 writes no text
entry (the tuple unpack at line 101 raises for every record) and no image
entry (`is_public_domain` is absent, so the record is not image-eligible). -/
theorem c4_end_to_end_counterexample :
    (build_embeddings_main (fun _ => some 0) (fun _ => .ok [1]) "b" [c4_r1, c4_r2]
        mainEmpty).textCollection.keys = [] ∧
    (build_embeddings_main (fun _ => some 0) (fun _ => .ok [1]) "b" [c4_r1, c4_r2]
        mainEmpty).imageCollection.keys = [] := by
  exact ⟨rfl, rfl⟩

/-- C4 amended: through the pipeline loop functions, a record with non-empty
text and no usable image contributes a text entry and no image entry; an
image entry additionally requires the public-domain flag (and a successful
fetch), so with record 2 marked public domain the text collection holds ids
1 and 2 and the image collection holds only id 2.  The build script `main`
instead skips a record without an image reference entirely. -/
theorem c4_ingestion_per_modality :
    (generate_text_embeddings_for_artworks (fun _ => .ok [1]) specAdd
        [c4_r1, c4_r2pd] emptyCollection).collection.keys = ["1", "2"] ∧
    (generate_image_embeddings_for_artworks (fun _ => some 0) (fun _ => .ok [1]) "b"
        specAdd [c4_r1, c4_r2pd] emptyCollection).collection.keys = ["2"] ∧
    (generate_image_embeddings_for_artworks (fun _ => some 0) (fun _ => .ok [1]) "b"
        specAdd [c4_r1, c4_r2] emptyCollection).collection.keys = [] ∧
    build_embeddings_main (fun _ => some 0) (fun _ => .ok [1]) "b" [c4_r1] mainEmpty =
      mainEmpty := by
  exact ⟨rfl, rfl, rfl, rfl⟩

/-- C5 counterexample: two records that differ only in the ORDER of their
subject tag list do NOT yield identical composed text — the description
line picks `subjects[0]`, the first truthy subject tag in list order
(text_embedder.py 69-71), even though the tags line itself is
order-independent. -/
theorem c5_tag_order_counterexample :
    c5_recB.subject_titles.Perm c5_recA.subject_titles ∧
    c5_recB.title = c5_recA.title ∧
    build_embedding_text c5_recA = "T\nOil\nTags: Oil, Painting" ∧
    build_embedding_text c5_recB = "T\nPainting\nTags: Oil, Painting" ∧
    build_embedding_text c5_recA ≠ build_embedding_text c5_recB := by
  refine ⟨by decide, rfl, rfl, rfl, ?_⟩
  intro h
  rw [show build_embedding_text c5_recA = "T\nOil\nTags: Oil, Painting" from rfl,
    show build_embedding_text c5_recB = "T\nPainting\nTags: Oil, Painting" from rfl] at h
  exact absurd h (by decide)

/-- C5 amended: `build_embedding_text` is a pure function of the record
(byte-identical across calls); its tags line is the lexicographically
sorted, deduplicated union of the four tag lists, so reordering the
`term_titles` or `material_titles` lists never changes the composed text.
(Reordering `subject_titles` / `classification_titles` can change the
description line, which picks the first truthy element — see the
counterexample.) -/
theorem c5_deterministic_sorted_tags :
    ∀ (r : ArtworkRecord) (t2 m2 : List String),
      t2.Perm r.term_titles → m2.Perm r.material_titles →
      build_embedding_text { r with term_titles := t2, material_titles := m2 } =
          build_embedding_text r ∧
      (sorted_tags r).Sorted (fun a b => strLe a b = true) ∧
      (sorted_tags r).Nodup ∧
      (∀ x, x ∈ sorted_tags r ↔
        (x ∈ r.subject_titles ++ r.classification_titles ++
            r.term_titles ++ r.material_titles ∧ x ≠ "")) := by
  intro r t2 m2 ht hm
  have hperm : (tag_union { r with term_titles := t2, material_titles := m2 }).Perm
      (tag_union r) := by
    unfold tag_union
    exact List.Perm.filter _ (((List.Perm.refl _).append ht).append hm)
  have hst : sorted_tags { r with term_titles := t2, material_titles := m2 } =
      sorted_tags r := by
    unfold sorted_tags
    exact insertionSort_eq_of_perm hperm.dedup
  have hdp : desc_parts { r with term_titles := t2, material_titles := m2 } =
      desc_parts r := rfl
  refine ⟨?_, List.sorted_insertionSort _ _, ?_, ?_⟩
  · simp only [build_embedding_text, bits, hst, hdp]
  · exact (List.perm_insertionSort _ _).nodup_iff.mpr (List.nodup_dedup _)
  · intro x
    unfold sorted_tags tag_union
    rw [(List.perm_insertionSort _ _).mem_iff, List.mem_dedup, List.mem_filter]
    simp [bne_iff_ne]

/-- Witness for C5 at a concrete record and permutation. -/
theorem c5_sorted_tags_witness :
    build_embedding_text { c5_recW with term_titles := ["a", "b"], material_titles := [] } =
        build_embedding_text c5_recW ∧
    (sorted_tags c5_recW).Sorted (fun a b => strLe a b = true) ∧
    (sorted_tags c5_recW).Nodup ∧
    (∀ x, x ∈ sorted_tags c5_recW ↔
      (x ∈ c5_recW.subject_titles ++ c5_recW.classification_titles ++
          c5_recW.term_titles ++ c5_recW.material_titles ∧ x ≠ "")) :=
  c5_deterministic_sorted_tags c5_recW ["a", "b"] [] (by decide) (by decide)

/-- C6: ingestion is fault-isolated per unit of work — for EVERY choice of
embedding, fetch and store outcomes (including ones that raise), both
pipeline loops run to completion with the processed counter equal to the
number of records; in the concrete ten-record scenario where only record
5's image fetch fails, the image loop reports processed=10, saved=9, and
records 6 through 10 are all stored. -/
theorem c6_fault_isolation :
    (∀ (f : String → Except String Vec) (t : TryAdd) (as : List ArtworkRecord)
      (c0 : Collection),
      (generate_text_embeddings_for_artworks f t as c0).count = as.length) ∧
    (∀ (fe : String → Option Img) (ei : Img → Except String Vec) (u : String)
      (t : TryAdd) (as : List ArtworkRecord) (c0 : Collection),
      (generate_image_embeddings_for_artworks fe ei u t as c0).count = as.length) ∧
    (generate_image_embeddings_for_artworks c6_fetch (fun _ => .ok [1]) "b" specAdd
        c6_records emptyCollection).count = 10 ∧
    (generate_image_embeddings_for_artworks c6_fetch (fun _ => .ok [1]) "b" specAdd
        c6_records emptyCollection).saved = 9 ∧
    (generate_image_embeddings_for_artworks c6_fetch (fun _ => .ok [1]) "b" specAdd
        c6_records emptyCollection).collection.keys =
      ["1", "2", "3", "4", "6", "7", "8", "9", "10"] := by
  refine ⟨?_, ?_, rfl, rfl, rfl⟩
  · intro f t as c0
    unfold generate_text_embeddings_for_artworks
    rw [foldl_textStep_count]
    simp
  · intro fe ei u t as c0
    unfold generate_image_embeddings_for_artworks
    rw [foldl_imageStep_count]
    simp

/-- C8: a record with every text field empty composes to exactly
"Artwork <id>"; `embed_text` maps blank / whitespace-only text to the empty
vector without calling the model; and the text-pipeline loop treats an
empty vector as a skip — the collection and saved counter are untouched for
that record. -/
theorem c8_empty_text_skip :
    (∀ (r : ArtworkRecord) (i : Int), r.id = some i →
      r.title.getD "" = "" → r.artist_title.getD "" = "" →
      r.medium_display.getD "" = "" → r.date_display.getD "" = "" →
      r.place_of_origin.getD "" = "" →
      r.subject_titles = [] → r.classification_titles = [] →
      r.term_titles = [] → r.material_titles = [] →
      build_embedding_text r = "Artwork " ++ toString i) ∧
    (∀ (f : String → Except String Vec) (s : String), pyStrip s = "" →
      embed_text f s = .ok []) ∧
    (∀ (f : String → Except String Vec) (t : TryAdd) (s : RunState)
      (a : ArtworkRecord) (i : Option Int) (txt : String),
      embed_artwork_text f a = .ok (i, [], txt) →
      (textStep f t s a).collection = s.collection ∧
      (textStep f t s a).saved = s.saved) := by
  refine ⟨?_, ?_, ?_⟩
  · intro r i hid ht ha hm hd hp hs hc htt hmt
    unfold build_embedding_text bits desc_parts first_subject sorted_tags tag_union
    rw [ht, ha, hm, hd, hp, hs, hc, htt, hmt, hid]
    rfl
  · intro f s hs
    unfold embed_text
    rw [hs]
    rfl
  · intro f t s a i txt hE
    unfold textStep
    rw [hE]
    exact ⟨rfl, rfl⟩

/-- Witness for C8: the all-empty record with id 7, blank input to
`embed_text`, and a loop iteration whose embedding came back empty. -/
theorem c8_empty_text_skip_witness :
    build_embedding_text c8_rec = "Artwork 7" ∧
    embed_text (fun _ => .ok []) " " = .ok [] ∧
    ((textStep (fun _ => .ok []) specAdd ⟨0, 0, emptyCollection⟩ c8_rec).collection =
        (⟨0, 0, emptyCollection⟩ : RunState).collection ∧
      (textStep (fun _ => .ok []) specAdd ⟨0, 0, emptyCollection⟩ c8_rec).saved =
        (⟨0, 0, emptyCollection⟩ : RunState).saved) :=
  ⟨c8_empty_text_skip.1 c8_rec 7 rfl rfl rfl rfl rfl rfl rfl rfl rfl rfl,
    c8_empty_text_skip.2.1 (fun _ => .ok []) " " rfl,
    c8_empty_text_skip.2.2 (fun _ => .ok []) specAdd ⟨0, 0, emptyCollection⟩ c8_rec
      (some 7) "Artwork 7" rfl⟩

theorem sanitized_title_ne (a : ArtworkRecord) : sanitized_title a ≠ "" := by
  unfold sanitized_title
  split
  · decide
  · next h => simpa using h

theorem sanitized_artist_ne (a : ArtworkRecord) : sanitized_artist a ≠ "" := by
  unfold sanitized_artist
  split
  · decide
  · next h => simpa using h

theorem hotfix_meta_sanitized (a : ArtworkRecord) (iid : String) :
    metaSanitized (hotfix_meta a iid) :=
  ⟨⟨iid, rfl⟩, ⟨sanitized_title a, rfl, sanitized_title_ne a⟩,
    ⟨sanitized_artist a, rfl, sanitized_artist_ne a⟩⟩

theorem mem_add_entries (c : Collection) (id : String) (e : CollectionEntry)
    (p : String × CollectionEntry) (h : p ∈ (c.add id e).entries) :
    p ∈ c.entries ∨ p = (id, e) := by
  simp only [Collection.add, List.mem_append, List.mem_cons, List.not_mem_nil,
    or_false] at h
  rcases h with h | h
  · exact Or.inl (List.mem_of_mem_filter h)
  · exact Or.inr h

theorem mainStep_image_mem (fetch : String → Option Img)
    (embedImg : Img → Except String Vec) (u : String) (s : MainState)
    (a : ArtworkRecord) (p : String × CollectionEntry)
    (h : p ∈ (mainStep fetch embedImg u s a).imageCollection.entries) :
    p ∈ s.imageCollection.entries ∨
      ∃ iid, a.image_id = some iid ∧ p.2.metadata = hotfix_meta a iid := by
  unfold mainStep main_text_unpack at h
  cases hid : a.image_id with
  | none =>
    simp only [hid] at h
    exact Or.inl h
  | some iid =>
    simp only [hid] at h
    cases hE : embed_artwork_image fetch embedImg a u with
    | error e =>
      simp only [hE] at h
      exact Or.inl h
    | ok v =>
      simp only [hE] at h
      cases v with
      | none => exact Or.inl h
      | some emb =>
        cases hemb : (emb == []) with
        | true =>
          simp only [hemb, if_true] at h
          exact Or.inl h
        | false =>
          simp only [hemb, Bool.false_eq_true, if_false] at h
          rcases mem_add_entries _ _ _ _ h with h1 | h1
          · exact Or.inl h1
          · subst h1
            exact Or.inr ⟨iid, rfl, rfl⟩

theorem main_foldl_image_meta (fetch : String → Option Img)
    (embedImg : Img → Except String Vec) (u : String)
    (records : List ArtworkRecord) :
    ∀ (s : MainState),
      (∀ p ∈ s.imageCollection.entries, metaSanitized p.2.metadata) →
      ∀ p ∈ (records.foldl (mainStep fetch embedImg u) s).imageCollection.entries,
        metaSanitized p.2.metadata := by
  induction records with
  | nil => intro s h; exact h
  | cons a as ih =>
    intro s h
    refine ih (mainStep fetch embedImg u s a) ?_
    intro p hp
    rcases mainStep_image_mem fetch embedImg u s a p hp with h1 | ⟨iid, _, hmeta⟩
    · exact h p h1
    · rw [hmeta]
      exact hotfix_meta_sanitized a iid

theorem mainStep_textCollection (fetch : String → Option Img)
    (embedImg : Img → Except String Vec) (u : String) (s : MainState)
    (a : ArtworkRecord) :
    (mainStep fetch embedImg u s a).textCollection = s.textCollection := by
  unfold mainStep main_text_unpack
  split
  · rfl
  · split
    · split
      · rfl
      · rfl
      · split <;> rfl
    · rename_i heq
      exact Except.noConfusion heq

/-- C7 amended: every image-collection entry the build script `main` writes
carries sanitized metadata — non-null image reference, title and artist
(missing title/artist replaced by "Unknown ..." placeholders) — and its
text collection stays empty; the pipeline loop functions, however, write
only a bare type marker (see the counterexample). -/
theorem c7_main_metadata_sanitized :
    ∀ (fetch : String → Option Img) (embedImg : Img → Except String Vec)
      (u : String) (records : List ArtworkRecord),
      (∀ p ∈ (build_embeddings_main fetch embedImg u records
          mainEmpty).imageCollection.entries, metaSanitized p.2.metadata) ∧
      (build_embeddings_main fetch embedImg u records mainEmpty).textCollection =
        emptyCollection := by
  intro fetch embedImg u records
  constructor
  · exact main_foldl_image_meta fetch embedImg u records mainEmpty
      (by intro p hp; cases hp)
  · have hpres : ∀ (s : MainState),
        (records.foldl (mainStep fetch embedImg u) s).textCollection =
          s.textCollection := by
      induction records with
      | nil => intro s; rfl
      | cons a as ih =>
        intro s
        rw [List.foldl_cons, ih, mainStep_textCollection]
    exact hpres mainEmpty

/-- C7 counterexample: the entry the pipeline text loop
(pipeline.py 57-63) stores for a fully populated record carries ONLY the
metadata `{"type": "text"}` — no image reference, no title, no artist —
so not every ingestion-written entry has the claimed metadata. -/
theorem c7_pipeline_metadata_counterexample :
    ((generate_text_embeddings_for_artworks (fun _ => .ok [1]) specAdd [c7_rec]
        emptyCollection).collection.entries.map (fun p => (p.1, p.2.metadata))) =
      [("3", [("type", "text")])] ∧
    ((generate_text_embeddings_for_artworks (fun _ => .ok [1]) specAdd [c7_rec]
        emptyCollection).collection.entries.map
      (fun p => p.2.metadata.lookup "title")) = [none] :=
  ⟨rfl, rfl⟩

/-- Witness for C7 at a concrete run of the build script. -/
theorem c7_main_metadata_witness :
    metaSanitized
      (((build_embeddings_main (fun _ => some 0) (fun _ => .ok [1]) "b" [c7_wrec]
          mainEmpty).imageCollection.entries.getD 0
        ("", ⟨[], [], none⟩)).2.metadata) :=
  (c7_main_metadata_sanitized (fun _ => some 0) (fun _ => .ok [1]) "b" [c7_wrec]).1
    _ (by decide)

/-- C9: recall curves are monotone in k — for the title self-retrieval
curve built from rank positions and for the artist recall built from the
latched prefix-hit computation — hence recall@max_k is at least recall@1;
and the prefix-hit flag, once true at rank r, is true at every k at least
r. -/
theorem c9_recall_monotone :
    ∀ (positions : List (Option Nat)) (items : List (String × Option (List Meta)))
      (k1 k2 max_k : Nat), k1 ≤ k2 → 1 ≤ max_k →
      positions_to_recall_curve positions k1 ≤ positions_to_recall_curve positions k2 ∧
      artist_recall_curve items k1 ≤ artist_recall_curve items k2 ∧
      positions_to_recall_curve positions 1 ≤ positions_to_recall_curve positions max_k ∧
      artist_recall_curve items 1 ≤ artist_recall_curve items max_k ∧
      (∀ (metas : List Meta) (artist : String) (r j : Nat), r ≤ j →
        prefixHitAux metas artist r = true → prefixHitAux metas artist j = true) := by
  intro positions items k1 k2 max_k h12 hmk
  have hpos : ∀ i j : Nat, i ≤ j →
      positions_to_recall_curve positions i ≤ positions_to_recall_curve positions j := by
    intro i j hij
    unfold positions_to_recall_curve
    apply ratio_mono
    apply length_filter_mono
    intro a ha
    cases a with
    | none => simp at ha
    | some v =>
      simp only [decide_eq_true_eq] at ha ⊢
      omega
  have hart : ∀ i j : Nat, i ≤ j →
      artist_recall_curve items i ≤ artist_recall_curve items j := by
    intro i j hij
    unfold artist_recall_curve
    apply ratio_mono
    apply length_filter_mono
    intro it hit
    cases hsnd : it.2 with
    | none => rw [hsnd] at hit; simp at hit
    | some metas => rw [hsnd] at hit; exact prefixHitAux_mono metas it.1 hij hit
  exact ⟨hpos k1 k2 h12, hart k1 k2 h12, hpos 1 max_k hmk, hart 1 max_k hmk,
    fun m a r j hrj h => prefixHitAux_mono m a hrj h⟩

/-- Witness for C9 at concrete curves and cutoffs 1 ≤ 2 ≤ 2. -/
theorem c9_recall_monotone_witness :
    positions_to_recall_curve c9_positions 1 ≤ positions_to_recall_curve c9_positions 2 ∧
    artist_recall_curve c9_items 1 ≤ artist_recall_curve c9_items 2 ∧
    positions_to_recall_curve c9_positions 1 ≤ positions_to_recall_curve c9_positions 2 ∧
    artist_recall_curve c9_items 1 ≤ artist_recall_curve c9_items 2 ∧
    (∀ (metas : List Meta) (artist : String) (r j : Nat), r ≤ j →
      prefixHitAux metas artist r = true → prefixHitAux metas artist j = true) :=
  c9_recall_monotone c9_positions c9_items 1 2 2 (by decide) (by decide)

theorem textStep_keys_mem (f : String → Except String Vec) (s : RunState)
    (a : ArtworkRecord) (k : String)
    (h : k ∈ (textStep f specAdd s a).collection.keys) :
    k ∈ s.collection.keys ∨ k = pyStr a.id := by
  unfold textStep at h
  cases hE : embed_artwork_text f a with
  | error e =>
    rw [hE] at h
    exact Or.inl h
  | ok v =>
    obtain ⟨i, emb, txt⟩ := v
    rw [hE] at h
    cases hemb : (emb == []) with
    | true =>
      simp only [hemb, if_true] at h
      exact Or.inl h
    | false =>
      simp only [hemb, Bool.false_eq_true, if_false, specAdd] at h
      rcases keys_add_mem _ _ _ _ h with h1 | h1
      · exact Or.inl h1
      · rw [(embed_artwork_text_parts f a i emb txt hE).1] at h1
        exact Or.inr h1

theorem imageStep_keys_mem (fe : String → Option Img)
    (ei : Img → Except String Vec) (u : String) (s : RunState)
    (a : ArtworkRecord) (k : String)
    (h : k ∈ (imageStep fe ei u specAdd s a).collection.keys) :
    k ∈ s.collection.keys ∨ k = pyStr a.id := by
  unfold imageStep at h
  cases hE : embed_artwork_image fe ei a u with
  | error e =>
    rw [hE] at h
    exact Or.inl h
  | ok v =>
    rw [hE] at h
    cases v with
    | none => exact Or.inl h
    | some emb =>
      simp only [specAdd] at h
      exact keys_add_mem _ _ _ _ h

theorem foldl_textStep_keys (f : String → Except String Vec)
    (as : List ArtworkRecord) :
    ∀ (s : RunState) (k : String),
      k ∈ (as.foldl (textStep f specAdd) s).collection.keys →
      k ∈ s.collection.keys ∨ ∃ r ∈ as, k = pyStr r.id := by
  induction as with
  | nil => intro s k h; exact Or.inl h
  | cons a as ih =>
    intro s k h
    rw [List.foldl_cons] at h
    rcases ih (textStep f specAdd s a) k h with h1 | ⟨r, hr, hk⟩
    · rcases textStep_keys_mem f s a k h1 with h2 | h2
      · exact Or.inl h2
      · exact Or.inr ⟨a, List.mem_cons_self a as, h2⟩
    · exact Or.inr ⟨r, List.mem_cons_of_mem a hr, hk⟩

theorem foldl_imageStep_keys (fe : String → Option Img)
    (ei : Img → Except String Vec) (u : String) (as : List ArtworkRecord) :
    ∀ (s : RunState) (k : String),
      k ∈ (as.foldl (imageStep fe ei u specAdd) s).collection.keys →
      k ∈ s.collection.keys ∨ ∃ r ∈ as, k = pyStr r.id := by
  induction as with
  | nil => intro s k h; exact Or.inl h
  | cons a as ih =>
    intro s k h
    rw [List.foldl_cons] at h
    rcases ih (imageStep fe ei u specAdd s a) k h with h1 | ⟨r, hr, hk⟩
    · rcases imageStep_keys_mem fe ei u s a k h1 with h2 | h2
      · exact Or.inl h2
      · exact Or.inr ⟨a, List.mem_cons_self a as, h2⟩
    · exact Or.inr ⟨r, List.mem_cons_of_mem a hr, hk⟩

/-- C10: every entry id either pipeline loop writes is `str()` of the
record id — integer ids become decimal strings, and a record with no id is
still embedded and stored under the literal id "None" rather than being
rejected. -/
theorem c10_entry_ids_are_str :
    (∀ (f : String → Except String Vec) (as : List ArtworkRecord) (k : String),
      k ∈ (generate_text_embeddings_for_artworks f specAdd as
          emptyCollection).collection.keys →
      ∃ r ∈ as, k = pyStr r.id) ∧
    (∀ (fe : String → Option Img) (ei : Img → Except String Vec) (u : String)
      (as : List ArtworkRecord) (k : String),
      k ∈ (generate_image_embeddings_for_artworks fe ei u specAdd as
          emptyCollection).collection.keys →
      ∃ r ∈ as, k = pyStr r.id) ∧
    (generate_text_embeddings_for_artworks (fun _ => .ok [1]) specAdd [c10_noid]
        emptyCollection).collection.keys = ["None"] ∧
    (generate_text_embeddings_for_artworks (fun _ => .ok [1]) specAdd [c10_id2]
        emptyCollection).collection.keys = ["2"] := by
  refine ⟨?_, ?_, rfl, rfl⟩
  · intro f as k h
    rcases foldl_textStep_keys f as ⟨0, 0, emptyCollection⟩ k h with h1 | h1
    · cases h1
    · exact h1
  · intro fe ei u as k h
    rcases foldl_imageStep_keys fe ei u as ⟨0, 0, emptyCollection⟩ k h with h1 | h1
    · cases h1
    · exact h1

/-- Witness for C10: the stored key "None" of a concrete no-id run indeed
comes from a record of the input list. -/
theorem c10_entry_ids_witness :
    ∃ r ∈ [c10_noid], "None" = pyStr r.id :=
  c10_entry_ids_are_str.1 (fun _ => .ok [1]) [c10_noid] "None" (by decide)
